import Mathlib

/-!
Verification of the request-mediation core of the business-data-assistant
repository: a shallow embedding, in Lean, of the Python modules
`config/permissions.py`, `config/cache.py`, `functions/base_function.py`
and `functions/client_notes.py`, together with theorems checking the
natural-language specification against that code.

Conventions of the embedding:
* Python strings are Lean `String`s; Python dicts whose values are strings
  (the `__user__` dicts and query-result rows that occur at every call site
  in this repository) are association lists `List (String × String)`.
* The Redis client may be absent (`_create_client` caught a connection
  error and returned `None`), healthy, or raising on every backend call;
  these three dispositions are the three constructors of `CacheClient`.
  A healthy backend is an in-memory model of the Redis keyspace.
* JSON serialization of cached values (`json.dumps`/`json.loads` with
  `decode_responses=True`) is modelled as the identity on strings: every
  value cached by this code is the string returned by an operation, and no
  claim under study concerns the serialized representation.
* `hashlib.md5(key_data).hexdigest()` in `generate_cache_key` is a fixed
  deterministic function of the string `key_data`; the embedding models the
  derived key as `key_data` itself, since every claim about the key concerns
  only which argument data enters the hash preimage.
* Side effects other than cache mutation (logging, timing) are dropped;
  observable actions (cache reads/writes, permission checks, query
  executions) are recorded in an event trace so that temporal claims can be
  stated.
-/

/-- Value of a Python expression as it participates in cache-key derivation:
the argument tuples of the repository contain strings, ints, `None`, and
flat string-valued dicts (the `__user__` dict). -/
inductive PyVal where
  | pstr (s : String)
  | pint (n : Int)
  | pdict (entries : List (String × String))
  | pnone
deriving DecidableEq, Repr

/-- One apostrophe, used by the Python `repr` of strings. -/
def apos : String := String.singleton '\''

/-- Model of Python `repr` for the values above, as used when a tuple or a
list of pairs is interpolated into an f-string.  String escaping inside
reprs is not modelled; no claim depends on it. -/
def pyRepr : PyVal → String
  | .pstr s => apos ++ s ++ apos
  | .pint n => toString n
  | .pdict entries =>
      "\x7b" ++ String.intercalate ", "
        (entries.map (fun p => apos ++ p.1 ++ apos ++ ": " ++ apos ++ p.2 ++ apos)) ++ "\x7d"
  | .pnone => "None"

/-- Python `str` of a tuple of values (`f"{args}"`), including the trailing
comma of a 1-tuple. -/
def pyTupleRepr (args : List PyVal) : String :=
  match args with
  | [] => "()"
  | [a] => "(" ++ pyRepr a ++ ",)"
  | _ => "(" ++ String.intercalate ", " (args.map pyRepr) ++ ")"

/-- Python `str` of a list of (name, value) pairs (`f"{sorted_kwargs}"`). -/
def pyPairListRepr (l : List (String × PyVal)) : String :=
  "[" ++ String.intercalate ", "
    (l.map (fun p => "(" ++ apos ++ p.1 ++ apos ++ ", " ++ pyRepr p.2 ++ ")")) ++ "]"

/-- Order used by `sorted(kwargs.items())`: keyword items compare by name
first; names are unique in a Python dict, so the value component never
decides the order. -/
def kwLE (a b : String × PyVal) : Prop := a.1 ≤ b.1

instance : DecidableRel kwLE := fun a b => inferInstanceAs (Decidable (a.1 ≤ b.1))

instance : IsTotal (String × PyVal) kwLE := ⟨fun a b => le_total a.1 b.1⟩

instance : IsTrans (String × PyVal) kwLE := ⟨fun _ _ _ h1 h2 => le_trans h1 h2⟩

/-- `CacheConfig.generate_cache_key` (config/cache.py lines 118-123): sort the
keyword arguments, build `f"{args}:{sorted_kwargs}"`, and hash it.  The md5
step is a fixed deterministic function of this preimage and is modelled as
the identity (see the header comment). -/
def generate_cache_key (args : List PyVal) (kwargs : List (String × PyVal)) : String :=
  let sorted_kwargs := List.insertionSort kwLE kwargs
  pyTupleRepr args ++ ":" ++ pyPairListRepr sorted_kwargs

/-! ## config/permissions.py -/

/-- `PermissionConfig.FUNCTION_PERMISSIONS`: operation name → allowed roles.
`Role` is a `str` enum, so members compare equal to their string values and
are modelled as the strings themselves. -/
def FUNCTION_PERMISSIONS_TABLE : List (String × List String) :=
  [ ("get_client_notes", ["admin", "sales", "support"]),
    ("get_all_notes", ["admin", "sales", "support"]),
    ("get_transaction_count", ["admin", "finance", "sales"]),
    ("get_total_amount_paid", ["admin", "finance"]),
    ("get_payment_history", ["admin", "finance"]),
    ("get_contract_status", ["admin", "sales"]),
    ("get_client_summary", ["admin", "sales", "finance"]) ]

/-- `FUNCTION_PERMISSIONS.get(function_name, [])`. -/
def FUNCTION_PERMISSIONS (function_name : String) : List String :=
  (FUNCTION_PERMISSIONS_TABLE.lookup function_name).getD []

/-- `PermissionConfig.can_access_function` (permissions.py lines 71-75). -/
def can_access_function (role function_name : String) : Bool :=
  (FUNCTION_PERMISSIONS function_name).contains role || role == "admin"

/-- `PermissionConfig.RATE_LIMITS`: role → queries per hour. -/
def RATE_LIMITS_TABLE : List (String × Nat) :=
  [ ("admin", 1000), ("sales", 500), ("support", 500),
    ("finance", 300), ("readonly", 100) ]

/-- `PermissionConfig.get_rate_limit` (permissions.py lines 77-80):
`RATE_LIMITS.get(role, 100)`. -/
def get_rate_limit (role : String) : Nat :=
  (RATE_LIMITS_TABLE.lookup role).getD 100

/-- The `can_view_all_clients` column of `PermissionConfig.DATA_ACCESS`. -/
def DATA_ACCESS_VIEW_ALL_TABLE : List (String × Bool) :=
  [ ("admin", true), ("sales", true), ("support", false),
    ("finance", true), ("readonly", false) ]

/-- `PermissionConfig.can_view_all_clients` (permissions.py lines 82-86):
`DATA_ACCESS.get(role, {}).get("can_view_all_clients", False)`. -/
def can_view_all_clients (role : String) : Bool :=
  (DATA_ACCESS_VIEW_ALL_TABLE.lookup role).getD false

/-! ## config/cache.py -/

/-- A Redis value: either a plain string (written by `SETEX`) or an
integer-encoded counter (written by `INCR`).  Redis keeps this distinction
internally; `INCR` on a non-integer string raises. -/
inductive RVal where
  | rstr (s : String)
  | rint (n : Int)
deriving DecidableEq, Repr

/-- In-memory model of the Redis keyspace visible to this code: the
key → value map and the key → TTL-seconds map recorded by `SETEX`/`EXPIRE`.
Wall-clock expiry itself is outside the embedding. -/
structure RedisState where
  store : List (String × RVal)
  ttls : List (String × Nat)
deriving DecidableEq, Repr

/-- Insert or overwrite a key in an association list. -/
def assocSet {α : Type} (k : String) (v : α) : List (String × α) → List (String × α)
  | [] => [(k, v)]
  | (k2, v2) :: rest => if k2 == k then (k, v) :: rest else (k2, v2) :: assocSet k v rest

/-- Disposition of `CacheConfig._client`: `noClient` models
`_create_client` having caught a connection error and returned `None`;
`working` a reachable backend; `raising` a backend whose every call raises
at call time. -/
inductive CacheClient where
  | noClient
  | working
  | raising
deriving DecidableEq, Repr

/-- `CacheConfig.get` (cache.py lines 52-68): `None` without a client or on
any backend error; otherwise the deserialized value when the raw reply is
truthy, else a miss. -/
def cache_get (c : CacheClient) (st : RedisState) (key : String) : Option String :=
  match c with
  | .noClient => none
  | .raising => none
  | .working =>
    match st.store.lookup key with
    | some (.rstr v) => if v != "" then some v else none
    | some (.rint n) => some (toString n)
    | none => none

/-- `CACHE_TTL_SECONDS` environment default. -/
def default_ttl : Nat := 300

/-- `CacheConfig.set` (cache.py lines 70-87): `False` without a client or on
backend error; otherwise `SETEX key ttl value`, where `ttl or
self.default_ttl` makes a `0` or absent TTL fall back to the default. -/
def cache_set (c : CacheClient) (st : RedisState) (key value : String) (ttl : Option Nat) :
    Bool × RedisState :=
  match c with
  | .noClient => (false, st)
  | .raising => (false, st)
  | .working =>
    let t := match ttl with
      | some n => if n == 0 then default_ttl else n
      | none => default_ttl
    (true, ⟨assocSet key (.rstr value) st.store, assocSet key t st.ttls⟩)

/-- `CacheConfig.delete` (cache.py lines 89-100). -/
def cache_delete (c : CacheClient) (st : RedisState) (key : String) : Bool × RedisState :=
  match c with
  | .noClient => (false, st)
  | .raising => (false, st)
  | .working =>
    (true, ⟨st.store.filter (fun p => p.1 != key), st.ttls.filter (fun p => p.1 != key)⟩)

/-- Redis glob matching for `KEYS pattern`, restricted to the `*` and `?`
metacharacters (character classes are never used by this repository). -/
def globMatchAux : List Char → List Char → Bool
  | [], [] => true
  | [], _ :: _ => false
  | '*' :: ps, [] => globMatchAux ps []
  | '*' :: ps, c :: ss => globMatchAux ps (c :: ss) || globMatchAux ('*' :: ps) ss
  | '?' :: ps, _ :: ss => globMatchAux ps ss
  | _ :: _, [] => false
  | p :: ps, c :: ss => p == c && globMatchAux ps ss
termination_by p s => (p.length, s.length)

/-- `CacheConfig.clear_pattern` (cache.py lines 102-116): `0` without a
client or on backend error; otherwise delete every matching key and return
how many were deleted. -/
def cache_clear_pattern (c : CacheClient) (st : RedisState) (pat : String) :
    Nat × RedisState :=
  match c with
  | .noClient => (0, st)
  | .raising => (0, st)
  | .working =>
    let ks := (st.store.map Prod.fst).filter (fun k => globMatchAux pat.data k.data)
    if ks.isEmpty then (0, st)
    else
      (ks.length,
       ⟨st.store.filter (fun p => !globMatchAux pat.data p.1.data),
        st.ttls.filter (fun p => !globMatchAux pat.data p.1.data)⟩)

/-- `CacheConfig.increment` (cache.py lines 125-134): `0` without a client
or on backend error; otherwise `INCRBY key amount`, which creates an absent
key at `amount`, adds to an integer value, and raises (caught, hence `0`)
on a non-integer value. -/
def cache_increment (c : CacheClient) (st : RedisState) (key : String) (amount : Int) :
    Int × RedisState :=
  match c with
  | .noClient => (0, st)
  | .raising => (0, st)
  | .working =>
    match st.store.lookup key with
    | none => (amount, ⟨assocSet key (.rint amount) st.store, st.ttls⟩)
    | some (.rint n) => (n + amount, ⟨assocSet key (.rint (n + amount)) st.store, st.ttls⟩)
    | some (.rstr s) =>
      match s.toInt? with
      | some n => (n + amount, ⟨assocSet key (.rint (n + amount)) st.store, st.ttls⟩)
      | none => (0, st)

/-- `CacheConfig.expire` (cache.py lines 136-145): `False` without a client
or on backend error; otherwise `EXPIRE key seconds`, which succeeds exactly
when the key exists. -/
def cache_expire (c : CacheClient) (st : RedisState) (key : String) (seconds : Nat) :
    Bool × RedisState :=
  match c with
  | .noClient => (false, st)
  | .raising => (false, st)
  | .working =>
    if (st.store.lookup key).isSome then (true, ⟨st.store, assocSet key seconds st.ttls⟩)
    else (false, st)

/-! ## functions/base_function.py and functions/client_notes.py -/

/-- The `__user__` dict supplied by the plugin host: string-valued keys
such as `id`, `name`, `role`. -/
abbrev UserDict := List (String × String)

/-- Python `user.get(key, default)` on a string-valued dict. -/
def userGet (u : UserDict) (key dflt : String) : String :=
  (u.lookup key).getD dflt

/-- A query-result row: column name → column value, as built by
`dict(zip(columns, row))`.  Values are modelled as the strings used by the
formatting code (`created_date.strftime(...)` is modelled as the stored
string). -/
abbrev Row := List (String × String)

/-- Python `row[key]` as used by the formatting loop; rows produced by the
configured queries carry all accessed columns. -/
def rowGet (row : Row) (key : String) : String :=
  (row.lookup key).getD ""

/-- Observable actions of one mediated call, recorded in order. -/
inductive Event where
  | cacheRead (key : String) (hit : Bool)
  | cacheWrite (key : String)
  | funcAuthCheck (ok : Bool)
  | rowAuthCheck (ok : Bool)
  | rateLimitCheck (ok : Bool)
  | dbExec (query : String) (params : List PyVal)
deriving DecidableEq, Repr

/-- Authorization-stage events: function-level, row-level, rate-limit. -/
def isAuthEvent : Event → Bool
  | .funcAuthCheck _ => true
  | .rowAuthCheck _ => true
  | .rateLimitCheck _ => true
  | _ => false

/-- Store-interaction events: each marks one `_execute_query` invocation. -/
def isDbExecEvent : Event → Bool
  | .dbExec _ _ => true
  | _ => false

/-- Behavior of the relational backing store (connection provider plus
query execution): a query either returns rows or raises, with the error
text of the underlying driver exception. -/
structure Db where
  run : String → List PyVal → Except String (List Row)

/-- The fixed message `BaseClientFunction._execute_query` raises in place of
any underlying exception (base_function.py line 264). -/
def unavailable_msg : String := "Unable to retrieve data. Please try again later."

/-- `BaseClientFunction._execute_query` (base_function.py lines 213-268):
runs the parameterized query with a row cap (`SET ROWCOUNT`), and converts
every failure - connection acquisition or execution - into the single
generic `unavailable_msg` exception.  The returned event records that
`_execute_query` was invoked against the store. -/
def execute_query (db : Db) (query : String) (params : List PyVal) (maxRows : Nat) :
    Except String (List Row) × List Event :=
  (match db.run query params with
   | .ok rows => .ok (rows.take maxRows)
   | .error _ => .error unavailable_msg,
   [Event.dbExec query params])

/-- The row-level access-mapping lookup issued by `_can_access_client`
(base_function.py lines 168-172), with whitespace normalized. -/
def USER_CLIENT_ACCESS_QUERY : String :=
  "SELECT 1 FROM dbo.user_client_access WHERE user_id = ? AND client_id = ?"

/-- Python `user.get('id')` as a query parameter: `None` when absent. -/
def uidParam (u : UserDict) : PyVal :=
  match u.lookup "id" with
  | some s => PyVal.pstr s
  | none => PyVal.pnone

/-- `BaseClientFunction._can_access_client` (base_function.py lines
147-179): blanket visibility passes immediately; otherwise the
access-mapping relation is consulted and the result is `len(results) > 0`;
any exception from the lookup is caught and the check fails closed. -/
def can_access_client (db : Db) (u : UserDict) (client_id : String) :
    Bool × List Event :=
  if can_view_all_clients (userGet u "role" "") then (true, [])
  else
    let (res, evs) := execute_query db USER_CLIENT_ACCESS_QUERY
      [uidParam u, PyVal.pstr client_id] 1000
    match res with
    | .ok results => (!results.isEmpty, evs)
    | .error _ => (false, evs)

/-- The rate-limit counter key `f"rate_limit:{user_id}"` with
`user.get('id', 'unknown')`. -/
def rate_key (u : UserDict) : String :=
  "rate_limit:" ++ userGet u "id" "unknown"

/-- `BaseClientFunction._check_rate_limit` (base_function.py lines 181-209):
increment the caller's counter, set a 3600-second expiry when the
post-increment value is 1, and pass exactly when the post-increment value
does not exceed the role's limit. -/
def check_rate_limit (c : CacheClient) (st : RedisState) (u : UserDict) :
    Bool × RedisState × List Event :=
  let limit := get_rate_limit (userGet u "role" "")
  let key := rate_key u
  let inc := cache_increment c st key 1
  let current := inc.1
  let st2 := if current == 1 then (cache_expire c inc.2 key 3600).2 else inc.2
  let ok := !(current > (limit : Int))
  (ok, st2, [Event.rateLimitCheck ok])

/-- `BaseClientFunction._check_permissions` (base_function.py lines
110-145) for `ClientNotesFunction`, whose `FUNCTION_NAME` is
`"get_client_notes"`: function-level check, then row-level check when a
truthy client id is supplied (`ENABLE_ROW_LEVEL_SECURITY` defaults to
`'true'` and is modelled as enabled), then rate limiting. -/
def check_permissions (db : Db) (c : CacheClient) (st : RedisState) (u : UserDict)
    (client_id : Option String) : Bool × RedisState × List Event :=
  let role := userGet u "role" ""
  if !can_access_function role "get_client_notes" then
    (false, st, [Event.funcAuthCheck false])
  else
    let rowStep : Bool × List Event :=
      match client_id with
      | some cid =>
        if cid != "" then
          let (b, evs) := can_access_client db u cid
          (b, evs ++ [Event.rowAuthCheck b])
        else (true, [])
      | none => (true, [])
    if !rowStep.1 then (false, st, Event.funcAuthCheck true :: rowStep.2)
    else
      let rl := check_rate_limit c st u
      (rl.1, rl.2.1, Event.funcAuthCheck true :: rowStep.2 ++ rl.2.2)

/-- Characters removed by Python `str.strip()` on the ASCII inputs of this
code. -/
def isSpaceChar (ch : Char) : Bool :=
  ch == ' ' || ch == '\t' || ch == '\n' || ch == '\r' || ch == '\x0b' || ch == '\x0c'

/-- Test whether `pat` occurs at the head of the character list. -/
def matchesAt : List Char → List Char → Bool
  | [], _ => true
  | _ :: _, [] => false
  | p :: ps, c :: cs => p == c && matchesAt ps cs

/-- Left-to-right scan implementing Python `s.replace(pat, '')` for a
non-empty `pat`: after a removed occurrence, scanning resumes past it; the
`Nat` argument counts pattern characters still being skipped. -/
def removeOccAux (pat : List Char) : Nat → List Char → List Char
  | _, [] => []
  | k + 1, _ :: rest => removeOccAux pat k rest
  | 0, c :: rest =>
    if matchesAt pat (c :: rest) then removeOccAux pat (pat.length - 1) rest
    else c :: removeOccAux pat 0 rest

/-- Python `s.replace(pat, '')` for a non-empty pattern. -/
def removeOcc (pat : List Char) (l : List Char) : List Char :=
  removeOccAux pat 0 l

/-- Drop trailing whitespace: the recursive form of
`reverse ∘ dropWhile isSpaceChar ∘ reverse`. -/
def dropTrailingSpaces : List Char → List Char
  | [] => []
  | c :: rest =>
    let r := dropTrailingSpaces rest
    if r.isEmpty && isSpaceChar c then [] else c :: r

/-- Python `str.strip()`: drop leading then trailing whitespace. -/
def pyStrip (l : List Char) : List Char :=
  dropTrailingSpaces (l.dropWhile isSpaceChar)

/-- `BaseClientFunction._sanitize_input` (base_function.py lines 272-292):
empty or `None` input yields `""`; otherwise the dangerous substrings
`';'`, `'--'`, `'/*'`, `'*/'`, `'xp_'`, `'sp_'` are removed in that order
and the result is stripped. -/
def sanitize_input (value : Option String) : String :=
  match value with
  | none => ""
  | some s =>
    if s == "" then ""
    else
      let l1 := removeOcc [';'] s.data
      let l2 := removeOcc ['-', '-'] l1
      let l3 := removeOcc ['/', '*'] l2
      let l4 := removeOcc ['*', '/'] l3
      let l5 := removeOcc ['x', 'p', '_'] l4
      let l6 := removeOcc ['s', 'p', '_'] l5
      String.mk (pyStrip l6)

/-- `_sanitize_input` applied to a present string, as the pipeline does. -/
def sanitize_str (s : String) : String := sanitize_input (some s)

/-- Validation message of `get_all_notes` (client_notes.py line 54). -/
def invalid_client_msg : String := "❌ Please provide a valid client ID."

/-- Denial message of `get_all_notes` (client_notes.py line 60). -/
def access_denied_msg : String :=
  "🔒 Access denied. You don" ++ apos ++ "t have permission to view this client" ++
  apos ++ "s notes."

/-- Configuration-error message of `get_all_notes` (client_notes.py line 65). -/
def query_config_msg : String :=
  "❌ Query configuration missing. Please check queries.json file."

/-- `BaseClientFunction._format_error_response` (base_function.py lines
294-310): the fixed user-facing message, independent of the exception. -/
def format_error_msg : String :=
  "I encountered an error while retrieving the data. Please try again or contact support if the issue persists."

/-- The formatting loop of `get_all_notes` (client_notes.py lines 74-81). -/
def format_notes (client_id : String) (results : List Row) : String :=
  "📋 **" ++ toString results.length ++ " notes for client " ++ client_id ++ ":**\n\n" ++
  String.join (results.map (fun row =>
    "**[" ++ rowGet row "created_date" ++ "]** " ++ rowGet row "action_type" ++ "\n" ++
    "_" ++ rowGet row "note_text" ++ "_\n" ++
    "By: " ++ rowGet row "created_by" ++ " | Status: " ++ rowGet row "status" ++ "\n\n"))

/-- Body of `ClientNotesFunction.get_all_notes` (client_notes.py lines
41-86), i.e. the function underneath the `@cache_result` decorator:
validate, sanitize, check permissions, fetch the configured query template
(`queries` models `QUERIES.get("client_notes", {}).get("get_all_notes")`,
loaded from the external queries.json), execute, and format; any execution
failure is converted by `_format_error_response` into the fixed message. -/
def get_all_notes_body (db : Db) (c : CacheClient) (st : RedisState)
    (queries : Option String) (client_id : String) (limit : PyVal) (u : UserDict) :
    String × RedisState × List Event :=
  if client_id == "" || String.mk (pyStrip client_id.data) == "" then
    (invalid_client_msg, st, [])
  else
    let cid := sanitize_str client_id
    let (ok, st1, pevs) := check_permissions db c st u (some cid)
    if !ok then (access_denied_msg, st1, pevs)
    else
      match queries with
      | none => (query_config_msg, st1, pevs)
      | some q =>
        if q == "" then (query_config_msg, st1, pevs)
        else
          let (res, qevs) := execute_query db q [limit, PyVal.pstr cid] 1000
          match res with
          | .error _ => (format_error_msg, st1, pevs ++ qevs)
          | .ok results =>
            if results.isEmpty then
              ("ℹ️ No notes found for client " ++ cid ++ ".", st1, pevs ++ qevs)
            else (format_notes cid results, st1, pevs ++ qevs)

/-- The key computed by the `cache_result` wrapper (base_function.py lines
38-41): keyword arguments minus `__user__`, prefixed with the wrapped
function name `get_all_notes`. -/
def wrapped_cache_key (args : List PyVal) (kwargs : List (String × PyVal)) : String :=
  let cache_kwargs := kwargs.filter (fun p => p.1 != "__user__")
  "get_all_notes:" ++ generate_cache_key args cache_kwargs

/-- The key derived for the call shape of `Tools.get_all_notes`
(client_notes.py lines 98-109), which forwards `client_id`, `limit` and
`__user__` positionally, so `args = (client_id, limit, __user__)` and
`kwargs = {}`. -/
def tools_key (client_id : String) (limit : Int) (u : UserDict) : String :=
  wrapped_cache_key [PyVal.pstr client_id, PyVal.pint limit, PyVal.pdict u] []

/-- `Tools.get_all_notes` end to end: the `cache_result(ttl=300)` wrapper
(base_function.py lines 36-58) around `get_all_notes`, invoked positionally
as `Tools` does.  On a hit the cached value is returned at once; on a miss
the body runs and its result - whatever it is - is stored under the key
with TTL 300. -/
def tools_get_all_notes (db : Db) (c : CacheClient) (st : RedisState)
    (queries : Option String) (client_id : String) (limit : Int) (u : UserDict) :
    String × RedisState × List Event :=
  let key := tools_key client_id limit u
  match cache_get c st key with
  | some v => (v, st, [Event.cacheRead key true])
  | none =>
    let (result, st1, evs) := get_all_notes_body db c st queries client_id (PyVal.pint limit) u
    let (_, st2) := cache_set c st1 key result (some 300)
    (result, st2, Event.cacheRead key false :: evs ++ [Event.cacheWrite key])

/-- A store with no rows for any query; used as a concrete environment. -/
def dbEmpty : Db := ⟨fun _ _ => Except.ok []⟩

/-- A sample query template standing in for the external queries.json entry
`client_notes.get_all_notes`; its text is opaque to the mediation core. -/
def sample_notes_query : String :=
  "SELECT TOP (?) * FROM dbo.notes WHERE client_id = ? ORDER BY created_date DESC"

/-! ## Concrete environments used by closed theorems -/

/-- The empty Redis keyspace. -/
def emptyRedis : RedisState := ⟨[], []⟩

/-- A caller whose role is `readonly`. -/
def userReadonly : UserDict := [("id", "u9"), ("role", "readonly")]

/-- A caller whose role is `sales` (blanket client visibility, limit 500). -/
def userSales : UserDict := [("id", "s1"), ("role", "sales")]

/-- A caller whose role is `support` (no blanket client visibility). -/
def userSupportKim : UserDict := [("id", "kim"), ("role", "support")]

/-- A caller whose role is `admin`. -/
def userAdmin : UserDict := [("id", "a1"), ("role", "admin")]

/-- A store whose every query raises with driver-level detail. -/
def dbBoom : Db :=
  ⟨fun _ _ => Except.error "pyodbc.OperationalError: connection timeout while querying dbo.notes"⟩

/-- A store returning one row for every query; in particular the
access-mapping lookup finds a (user, client) row. -/
def dbOneRow : Db := ⟨fun _ _ => Except.ok [[("1", "1")]]⟩

/-- A keyspace already holding a value under the key the wrapper derives
for the `Tools`-shape call `("CLIENT1", 100, userReadonly)`. -/
def c1_state : RedisState :=
  ⟨[(tools_key "CLIENT1" 100 userReadonly, RVal.rstr "SECRET NOTES")], []⟩

/-- A keyspace already holding a value under the key the wrapper derives
for the `Tools`-shape call `("CLIENT2", 100, userSales)`. -/
def c1w_state : RedisState :=
  ⟨[(tools_key "CLIENT2" 100 userSales, RVal.rstr "CACHED VALUE")], []⟩

/-- State after `n` successive `_check_rate_limit` calls by the same
caller (first call first). -/
def rateIter (c : CacheClient) (u : UserDict) : Nat → RedisState → RedisState
  | 0, st => st
  | n + 1, st => rateIter c u n (check_rate_limit c st u).2.1

/-! ## Helper lemmas -/

theorem assocSet_lookup_self {α : Type} (k : String) (v : α) :
    ∀ l : List (String × α), List.lookup k (assocSet k v l) = some v := by
  intro l
  induction l with
  | nil => simp [assocSet, List.lookup]
  | cons p rest ih =>
    obtain ⟨k2, v2⟩ := p
    by_cases h : k2 = k
    · subst h
      simp [assocSet, List.lookup]
    · simp only [assocSet, beq_iff_eq, h, if_false, List.lookup]
      have h2 : (k == k2) = false := by simp [Ne.symm h]
      simp [h2, ih]

/-! ## C4: function-level authorization -/

/-- C4: `can_access_function` returns true iff the role is in the
operation's allowed-role set or the role is `admin`; `admin` passes for
every operation name; a role outside the allowed set (and not `admin`) is
denied; an operation name with no registry entry has the empty allowed
set. -/
theorem c4_function_level_authorization :
    (∀ role fn, can_access_function role fn = true ↔
       (role ∈ FUNCTION_PERMISSIONS fn ∨ role = "admin"))
    ∧ (∀ fn, can_access_function "admin" fn = true)
    ∧ (∀ role fn, role ∉ FUNCTION_PERMISSIONS fn → role ≠ "admin" →
        can_access_function role fn = false)
    ∧ (∀ fn, List.lookup fn FUNCTION_PERMISSIONS_TABLE = none →
        FUNCTION_PERMISSIONS fn = []) := by
  have h1 : ∀ role fn, can_access_function role fn = true ↔
      (role ∈ FUNCTION_PERMISSIONS fn ∨ role = "admin") := by
    intro role fn
    simp [can_access_function, List.elem_iff, List.contains]
  refine ⟨h1, ?_, ?_, ?_⟩
  · intro fn
    exact (h1 "admin" fn).mpr (Or.inr rfl)
  · intro role fn hmem hadm
    cases hb : can_access_function role fn
    · rfl
    · exact absurd ((h1 role fn).mp hb) (by simp [hmem, hadm])
  · intro fn h
    simp [FUNCTION_PERMISSIONS, h]

/-- Witness for C4 at concrete roles and operations. -/
theorem c4_witness :
    can_access_function "readonly" "get_client_notes" = false ∧
    can_access_function "admin" "completely_unknown_op" = true ∧
    can_access_function "support" "get_payment_history" = false :=
  ⟨c4_function_level_authorization.2.2.1 "readonly" "get_client_notes" (by decide) (by decide),
   c4_function_level_authorization.2.1 "completely_unknown_op",
   c4_function_level_authorization.2.2.1 "support" "get_payment_history" (by decide) (by decide)⟩

/-! ## C8: every cache operation degrades to an inert default -/

/-- C8: with no client or a raising backend, `get` returns `none`, `set`
returns `false`, `increment` returns `0`, `expire` returns `false`,
`delete` returns `false`, `clear_pattern` returns `0`, all without touching
state - and consequently `_check_rate_limit` always passes, so rate
limiting is unenforced while the cache is down. -/
theorem c8_cache_unreachable_inert :
    ∀ (st : RedisState) (key value : String) (ttl : Option Nat) (amount : Int)
      (seconds : Nat) (pat : String) (u : UserDict),
    cache_get CacheClient.noClient st key = none ∧
    cache_get CacheClient.raising st key = none ∧
    cache_set CacheClient.noClient st key value ttl = (false, st) ∧
    cache_set CacheClient.raising st key value ttl = (false, st) ∧
    cache_increment CacheClient.noClient st key amount = (0, st) ∧
    cache_increment CacheClient.raising st key amount = (0, st) ∧
    cache_expire CacheClient.noClient st key seconds = (false, st) ∧
    cache_expire CacheClient.raising st key seconds = (false, st) ∧
    cache_delete CacheClient.noClient st key = (false, st) ∧
    cache_delete CacheClient.raising st key = (false, st) ∧
    cache_clear_pattern CacheClient.noClient st pat = (0, st) ∧
    cache_clear_pattern CacheClient.raising st pat = (0, st) ∧
    check_rate_limit CacheClient.noClient st u = (true, st, [Event.rateLimitCheck true]) ∧
    check_rate_limit CacheClient.raising st u = (true, st, [Event.rateLimitCheck true]) := by
  intro st key value ttl amount seconds pat u
  have hd : ((0:Int) > ((get_rate_limit (userGet u "role" "")) : Int)) = False :=
    eq_false (by omega)
  refine ⟨rfl, rfl, rfl, rfl, rfl, rfl, rfl, rfl, rfl, rfl, rfl, rfl, ?_, ?_⟩
  · simp [check_rate_limit, cache_increment, cache_expire, hd]
  · simp [check_rate_limit, cache_increment, cache_expire, hd]

/-! ## C5: row-level access check -/

/-- C5: for a caller whose role lacks blanket visibility,
`_can_access_client` fails closed when the access-mapping lookup raises,
and otherwise grants access iff the lookup returned at least one row. -/
theorem c5_row_level_access_check :
    ∀ (db : Db) (u : UserDict) (cid : String),
    can_view_all_clients (userGet u "role" "") = false →
    ((∀ e, db.run USER_CLIENT_ACCESS_QUERY [uidParam u, PyVal.pstr cid] = Except.error e →
        (can_access_client db u cid).1 = false)
     ∧ (∀ rows, db.run USER_CLIENT_ACCESS_QUERY [uidParam u, PyVal.pstr cid] = Except.ok rows →
        ((can_access_client db u cid).1 = true ↔ rows ≠ []))) := by
  intro db u cid hbl
  constructor
  · intro e he
    simp [can_access_client, hbl, execute_query, he]
  · intro rows hr
    simp [can_access_client, hbl, execute_query, hr, List.isEmpty_iff, List.take_eq_nil_iff]

/-- Witness for C5: a support-role caller with no mapping row is denied,
and a raising lookup also denies (fail closed). -/
theorem c5_witness :
    (can_access_client dbEmpty userSupportKim "CLIENT5").1 = false ∧
    (can_access_client dbBoom userSupportKim "CLIENT5").1 = false := by
  constructor
  · have h := (c5_row_level_access_check dbEmpty userSupportKim "CLIENT5" (by decide)).2 [] rfl
    simpa using h
  · exact (c5_row_level_access_check dbBoom userSupportKim "CLIENT5" (by decide)).1 _ rfl

/-! ## C6: store failures are masked by one fixed generic message -/

/-- C6: when a call reaches query execution and the store raises - with any
error text whatsoever - the string returned to the caller is the fixed
`format_error_msg`; the conclusion does not mention the error text, so no
internal detail can appear in the returned string. -/
theorem c6_store_failure_masked :
    ∀ (db : Db) (c : CacheClient) (st : RedisState) (q cid : String) (lim : Int)
      (u : UserDict) (errText : String),
    cache_get c st (tools_key cid lim u) = none →
    (cid == "" || String.mk (pyStrip cid.data) == "") = false →
    (check_permissions db c st u (some (sanitize_str cid))).1 = true →
    (q == "") = false →
    db.run q [PyVal.pint lim, PyVal.pstr (sanitize_str cid)] = Except.error errText →
    (tools_get_all_notes db c st (some q) cid lim u).1 = format_error_msg := by
  intro db c st q cid lim u errText hmiss hval hperm hq hdb
  rcases hcp : check_permissions db c st u (some (sanitize_str cid)) with ⟨ok, st1, pevs⟩
  rw [hcp] at hperm
  simp only at hperm
  subst hperm
  simp [tools_get_all_notes, hmiss, get_all_notes_body, hval, hcp, hq, execute_query, hdb]

/-- Witness for C6: an admin call against a store that raises with driver
detail returns exactly the fixed user-facing message. -/
theorem c6_witness :
    (tools_get_all_notes dbBoom CacheClient.working emptyRedis (some sample_notes_query)
      "CLIENT7" 100 userAdmin).1 = format_error_msg :=
  c6_store_failure_masked dbBoom CacheClient.working emptyRedis sample_notes_query
    "CLIENT7" 100 userAdmin
    "pyodbc.OperationalError: connection timeout while querying dbo.notes"
    (by decide) (by decide) (by decide) (by decide) rfl

/-! ## C10: sanitization -/

theorem removeOccAux_sublist (pat : List Char) :
    ∀ (l : List Char) (k : Nat), List.Sublist (removeOccAux pat k l) l := by
  intro l
  induction l with
  | nil => intro k; simp [removeOccAux]
  | cons c rest ih =>
    intro k
    cases k with
    | succ k2 =>
      simp only [removeOccAux]
      exact List.Sublist.cons c (ih k2)
    | zero =>
      simp only [removeOccAux]
      by_cases h : matchesAt pat (c :: rest) = true
      · simp only [h, if_true]
        exact List.Sublist.cons c (ih _)
      · simp only [h, if_false, Bool.false_eq_true]
        exact List.Sublist.cons₂ c (ih 0)

theorem removeOcc_sublist (pat l : List Char) : List.Sublist (removeOcc pat l) l :=
  removeOccAux_sublist pat l 0

theorem removeOcc_semicolon_not_mem : ∀ l : List Char, ';' ∉ removeOcc [';'] l := by
  intro l
  induction l with
  | nil => simp [removeOcc, removeOccAux]
  | cons c rest ih =>
    by_cases h : (';' : Char) = c
    · subst h
      have hm : matchesAt [';'] (';' :: rest) = true := by simp [matchesAt]
      simp only [removeOcc, removeOccAux, hm, if_true]
      exact ih
    · have hm : matchesAt [';'] (c :: rest) = false := by
        simp [matchesAt]
        exact fun hh => absurd hh h
      simp only [removeOcc, removeOccAux, hm, Bool.false_eq_true, if_false]
      intro hmem
      rcases List.mem_cons.mp hmem with h1 | h2
      · exact h h1
      · exact ih h2

theorem mem_dropTrailingSpaces : ∀ (l : List Char) (x : Char),
    x ∈ dropTrailingSpaces l → x ∈ l := by
  intro l
  induction l with
  | nil => simp [dropTrailingSpaces]
  | cons c rest ih =>
    intro x hx
    simp only [dropTrailingSpaces] at hx
    by_cases h : ((dropTrailingSpaces rest).isEmpty && isSpaceChar c) = true
    · rw [h] at hx
      simp at hx
    · simp only [h, Bool.false_eq_true, if_false] at hx
      rcases List.mem_cons.mp hx with h1 | h2
      · simp [h1]
      · exact List.mem_cons_of_mem c (ih x h2)

theorem head_dropTrailingSpaces : ∀ (l : List Char) (ch : Char),
    (dropTrailingSpaces l).head? = some ch → l.head? = some ch := by
  intro l
  induction l with
  | nil => simp [dropTrailingSpaces]
  | cons c rest _ =>
    intro ch h
    simp only [dropTrailingSpaces] at h
    by_cases hc : ((dropTrailingSpaces rest).isEmpty && isSpaceChar c) = true
    · rw [hc] at h
      simp at h
    · simp only [hc, Bool.false_eq_true, if_false, List.head?_cons, Option.some.injEq] at h
      simp [h]

theorem getLast_dropTrailingSpaces : ∀ (l : List Char) (ch : Char),
    (dropTrailingSpaces l).getLast? = some ch → isSpaceChar ch = false := by
  intro l
  induction l with
  | nil => simp [dropTrailingSpaces]
  | cons c rest ih =>
    intro ch h
    simp only [dropTrailingSpaces] at h
    cases hr : dropTrailingSpaces rest with
    | nil =>
      rw [hr] at h
      cases hc : isSpaceChar c
      · simp only [List.isEmpty_nil, hc, Bool.and_false, Bool.false_eq_true, if_false] at h
        simp only [List.getLast?_singleton, Option.some.injEq] at h
        rw [← h]
        exact hc
      · simp [hc] at h
    | cons d rest2 =>
      rw [hr] at h
      simp only [List.isEmpty_cons, Bool.false_and, Bool.false_eq_true, if_false] at h
      have h2 : (d :: rest2).getLast? = some ch := by
        rw [← h]
        rfl
      exact ih ch (by rw [hr]; exact h2)

theorem head_dropWhile_isSpace : ∀ (l : List Char) (ch : Char),
    (l.dropWhile isSpaceChar).head? = some ch → isSpaceChar ch = false := by
  intro l
  induction l with
  | nil => simp
  | cons c rest ih =>
    intro ch h
    rw [List.dropWhile_cons] at h
    cases hc : isSpaceChar c
    · simp only [hc, Bool.false_eq_true, if_false, List.head?_cons, Option.some.injEq] at h
      rw [← h]
      exact hc
    · simp only [hc, if_true] at h
      exact ih ch h

theorem pyStrip_head_not_space (l : List Char) (ch : Char) :
    (pyStrip l).head? = some ch → isSpaceChar ch = false := by
  intro h
  exact head_dropWhile_isSpace _ ch (head_dropTrailingSpaces _ ch h)

theorem pyStrip_getLast_not_space (l : List Char) (ch : Char) :
    (pyStrip l).getLast? = some ch → isSpaceChar ch = false :=
  fun h => getLast_dropTrailingSpaces _ ch h

theorem mem_pyStrip (l : List Char) (x : Char) : x ∈ pyStrip l → x ∈ l :=
  fun h => (List.dropWhile_sublist _).mem (mem_dropTrailingSpaces _ x h)

/-- C10: `_sanitize_input` output never contains `';'` and carries no
leading or trailing whitespace; `None` or empty input yields `""`; and the
sequential substring removal can reassemble other dangerous substrings, as
`'-xp_-'` sanitizing to `'--'` shows. -/
theorem c10_sanitize_input :
    (∀ s : String, ((sanitize_input (some s)).data.contains ';') = false)
    ∧ (∀ s : String, ((sanitize_input (some s)).data.head?.all (fun ch => !isSpaceChar ch)) = true)
    ∧ (∀ s : String, ((sanitize_input (some s)).data.getLast?.all (fun ch => !isSpaceChar ch)) = true)
    ∧ sanitize_input none = ""
    ∧ sanitize_input (some "") = ""
    ∧ sanitize_input (some "-xp_-") = "--" := by
  refine ⟨?_, ?_, ?_, rfl, by decide, by decide⟩
  · intro s
    by_cases hs : s = ""
    · subst hs; decide
    · have hs2 : (s == "") = false := by simp [hs]
      simp only [sanitize_input, hs2, Bool.false_eq_true, if_false]
      cases hc : List.contains (String.mk (pyStrip (removeOcc ['s', 'p', '_']
        (removeOcc ['x', 'p', '_'] (removeOcc ['*', '/'] (removeOcc ['/', '*']
        (removeOcc ['-', '-'] (removeOcc [';'] s.data)))))))).data ';'
      · rfl
      · exfalso
        have hmem := List.elem_iff.mp hc
        have h6 := mem_pyStrip _ _ hmem
        have h5 := (removeOcc_sublist _ _).mem h6
        have h4 := (removeOcc_sublist _ _).mem h5
        have h3 := (removeOcc_sublist _ _).mem h4
        have h2 := (removeOcc_sublist _ _).mem h3
        have h1 := (removeOcc_sublist _ _).mem h2
        exact removeOcc_semicolon_not_mem s.data h1
  · intro s
    by_cases hs : s = ""
    · subst hs; decide
    · have hs2 : (s == "") = false := by simp [hs]
      simp only [sanitize_input, hs2, Bool.false_eq_true, if_false]
      cases hh : (String.mk (pyStrip (removeOcc ['s', 'p', '_']
        (removeOcc ['x', 'p', '_'] (removeOcc ['*', '/'] (removeOcc ['/', '*']
        (removeOcc ['-', '-'] (removeOcc [';'] s.data)))))))).data.head? with
      | none => simp [hh]
      | some ch =>
        have := pyStrip_head_not_space _ ch hh
        simp [hh, this]
  · intro s
    by_cases hs : s = ""
    · subst hs; decide
    · have hs2 : (s == "") = false := by simp [hs]
      simp only [sanitize_input, hs2, Bool.false_eq_true, if_false]
      cases hh : (String.mk (pyStrip (removeOcc ['s', 'p', '_']
        (removeOcc ['x', 'p', '_'] (removeOcc ['*', '/'] (removeOcc ['/', '*']
        (removeOcc ['-', '-'] (removeOcc [';'] s.data)))))))).data.getLast? with
      | none => simp [hh]
      | some ch =>
        have := pyStrip_getLast_not_space _ ch hh
        simp [hh, this]

/-! ## C2: cache-key derivation -/

theorem kw_sorted_perm_eq :
    ∀ (l1 l2 : List (String × PyVal)), List.Sorted kwLE l1 → List.Sorted kwLE l2 →
      List.Perm l1 l2 → (l1.map Prod.fst).Nodup → l1 = l2 := by
  intro l1
  induction l1 with
  | nil =>
    intro l2 _ _ hp _
    exact hp.nil_eq
  | cons a t1 ih =>
    intro l2 hs1 hs2 hp hnd
    cases l2 with
    | nil => exact absurd hp.eq_nil (by simp)
    | cons b t2 =>
      have hs1' := List.sorted_cons.mp hs1
      have hs2' := List.sorted_cons.mp hs2
      simp only [List.map_cons, List.nodup_cons] at hnd
      have hab : a = b := by
        have hamem : a ∈ b :: t2 := hp.subset (List.mem_cons_self a t1)
        have hbmem : b ∈ a :: t1 := hp.symm.subset (List.mem_cons_self b t2)
        rcases List.mem_cons.mp hamem with h | h
        · exact h
        · have hba : b.1 ≤ a.1 := hs2'.1 a h
          rcases List.mem_cons.mp hbmem with h2 | h2
          · exact h2.symm
          · have hab2 : a.1 ≤ b.1 := hs1'.1 b h2
            have hkey : a.1 = b.1 := le_antisymm hab2 hba
            exfalso
            have hm : b.1 ∈ t1.map Prod.fst := List.mem_map_of_mem Prod.fst h2
            rw [← hkey] at hm
            exact hnd.1 hm
      subst hab
      have ht : List.Perm t1 t2 := hp.cons_inv
      rw [ih t2 hs1'.2 hs2'.2 ht hnd.2]

theorem generate_cache_key_perm (args : List PyVal) (kw1 kw2 : List (String × PyVal))
    (hperm : List.Perm kw1 kw2) (hnd : (kw1.map Prod.fst).Nodup) :
    generate_cache_key args kw1 = generate_cache_key args kw2 := by
  have hs1 := List.sorted_insertionSort kwLE kw1
  have hs2 := List.sorted_insertionSort kwLE kw2
  have hp : List.Perm (List.insertionSort kwLE kw1) (List.insertionSort kwLE kw2) :=
    (List.perm_insertionSort kwLE kw1).trans (hperm.trans (List.perm_insertionSort kwLE kw2).symm)
  have hnd' : ((List.insertionSort kwLE kw1).map Prod.fst).Nodup := by
    have hpm : List.Perm ((List.insertionSort kwLE kw1).map Prod.fst) (kw1.map Prod.fst) :=
      (List.perm_insertionSort kwLE kw1).map Prod.fst
    exact hpm.nodup_iff.mpr hnd
  have heq := kw_sorted_perm_eq _ _ hs1 hs2 hp hnd'
  simp [generate_cache_key, heq]

/-- C2 (amended): the derived key is invariant under keyword-argument
reordering (for the duplicate-free keyword names a Python call supplies);
`__user__` passed as a keyword never affects the key; but for the
positional call shape of `Tools.get_all_notes` the caller identity is part
of `args` and does reach the key, so two such calls differing only in
caller identity derive different keys. -/
theorem c2_cache_key_properties :
    (∀ (args : List PyVal) (kw1 kw2 : List (String × PyVal)),
       List.Perm kw1 kw2 → (kw1.map Prod.fst).Nodup →
       wrapped_cache_key args kw1 = wrapped_cache_key args kw2)
    ∧ (∀ (args : List PyVal) (kw : List (String × PyVal)) (u1 u2 : PyVal),
        wrapped_cache_key args (("__user__", u1) :: kw) =
        wrapped_cache_key args (("__user__", u2) :: kw))
    ∧ (∀ (args : List PyVal) (kw : List (String × PyVal)) (u : PyVal),
        wrapped_cache_key args (("__user__", u) :: kw) = wrapped_cache_key args kw)
    ∧ tools_key "CLIENT1" 100 [("id", "u1"), ("role", "sales")] ≠
      tools_key "CLIENT1" 100 [("id", "u2"), ("role", "sales")] := by
  have hdrop : ∀ (args : List PyVal) (kw : List (String × PyVal)) (u : PyVal),
      wrapped_cache_key args (("__user__", u) :: kw) = wrapped_cache_key args kw := by
    intro args kw u
    simp [wrapped_cache_key]
  refine ⟨?_, ?_, hdrop, by decide⟩
  · intro args kw1 kw2 hperm hnd
    have hpf : List.Perm (kw1.filter (fun p => p.1 != "__user__"))
        (kw2.filter (fun p => p.1 != "__user__")) := hperm.filter _
    have hsub : List.Sublist ((kw1.filter (fun p => p.1 != "__user__")).map Prod.fst)
        (kw1.map Prod.fst) := (List.filter_sublist kw1).map Prod.fst
    have hndf : ((kw1.filter (fun p => p.1 != "__user__")).map Prod.fst).Nodup :=
      List.Nodup.sublist hsub hnd
    simp only [wrapped_cache_key]
    rw [generate_cache_key_perm args _ _ hpf hndf]
  · intro args kw u1 u2
    rw [hdrop, hdrop]

/-- Counterexample for C2 as stated: the `Tools.get_all_notes` call shape
passes `__user__` positionally, and two calls differing only in caller
identity derive different keys. -/
theorem c2_counterexample :
    tools_key "CLIENT9" 50 [("id", "alice"), ("name", "Alice"), ("role", "support")] ≠
    tools_key "CLIENT9" 50 [("id", "bob"), ("name", "Bob"), ("role", "support")] := by
  decide

/-- Witness for C2's amended theorem at concrete keyword lists. -/
theorem c2_witness :
    wrapped_cache_key [PyVal.pstr "C1"] [("b", PyVal.pint 1), ("a", PyVal.pint 2)] =
      wrapped_cache_key [PyVal.pstr "C1"] [("a", PyVal.pint 2), ("b", PyVal.pint 1)] ∧
    wrapped_cache_key [PyVal.pstr "C1"]
        [("__user__", PyVal.pdict [("id", "u1")]), ("limit", PyVal.pint 5)] =
      wrapped_cache_key [PyVal.pstr "C1"]
        [("__user__", PyVal.pdict [("id", "u2")]), ("limit", PyVal.pint 5)] :=
  ⟨c2_cache_key_properties.1 _ _ _ (by decide) (by decide),
   c2_cache_key_properties.2.1 _ _ _ _⟩

/-! ## C7: rate limiting -/

theorem get_rate_limit_pos (role : String) : 1 ≤ get_rate_limit role := by
  unfold get_rate_limit RATE_LIMITS_TABLE
  simp only [List.lookup]
  repeat' split
  all_goals simp

theorem rate_first_call (u : UserDict) (st : RedisState)
    (h : List.lookup (rate_key u) st.store = none) :
    check_rate_limit CacheClient.working st u =
      (!((1:Int) > (get_rate_limit (userGet u "role" "") : Int)),
       ⟨assocSet (rate_key u) (RVal.rint 1) st.store, assocSet (rate_key u) 3600 st.ttls⟩,
       [Event.rateLimitCheck (!((1:Int) > (get_rate_limit (userGet u "role" "") : Int)))]) := by
  simp [check_rate_limit, cache_increment, h, cache_expire, assocSet_lookup_self]

theorem rate_next_call (u : UserDict) (st : RedisState) (m : Int) (hm : 1 ≤ m)
    (h : List.lookup (rate_key u) st.store = some (RVal.rint m)) :
    check_rate_limit CacheClient.working st u =
      (!((m + 1 : Int) > (get_rate_limit (userGet u "role" "") : Int)),
       ⟨assocSet (rate_key u) (RVal.rint (m + 1)) st.store, st.ttls⟩,
       [Event.rateLimitCheck (!((m + 1 : Int) > (get_rate_limit (userGet u "role" "") : Int)))]) := by
  have hne : ((m + 1 : Int) == 1) = false := by
    simp
    omega
  simp [check_rate_limit, cache_increment, h, hne]

theorem rate_iter_counter (u : UserDict) :
    ∀ (j : Nat) (st : RedisState) (m : Int), 1 ≤ m →
    List.lookup (rate_key u) st.store = some (RVal.rint m) →
    (List.lookup (rate_key u) (rateIter CacheClient.working u j st).store
       = some (RVal.rint (m + (j : Int)))
     ∧ (rateIter CacheClient.working u j st).ttls = st.ttls) := by
  intro j
  induction j with
  | zero =>
    intro st m hm h
    constructor
    · simpa [rateIter] using h
    · rfl
  | succ k ih =>
    intro st m hm h
    have hc := rate_next_call u st m hm h
    have h2 : List.lookup (rate_key u)
        (assocSet (rate_key u) (RVal.rint (m + 1)) st.store) = some (RVal.rint (m + 1)) :=
      assocSet_lookup_self _ _ _
    have hrec := ih ⟨assocSet (rate_key u) (RVal.rint (m + 1)) st.store, st.ttls⟩
      (m + 1) (by omega) h2
    have harith : (m + 1) + (k : Int) = m + ((k : Int) + 1) := by ring
    constructor
    · show List.lookup (rate_key u)
        (rateIter CacheClient.working u k (check_rate_limit CacheClient.working st u).2.1).store
        = some (RVal.rint (m + ((k : Nat) + 1 : Nat)))
      rw [hc]
      have := hrec.1
      rw [harith] at this
      simpa using this
    · show (rateIter CacheClient.working u k (check_rate_limit CacheClient.working st u).2.1).ttls
        = st.ttls
      rw [hc]
      exact hrec.2

/-- C7: with a reachable backend and an initially absent counter, the first
N calls in a window pass (`N` the role's limit, unknown roles defaulting to
100), the (N+1)-th call is denied, the 3600-second expiry is set exactly by
the increment whose post-increment value is 1, and later increments leave
the TTL map untouched. -/
theorem c7_rate_limiting :
    ∀ (u : UserDict) (st0 : RedisState),
    List.lookup (rate_key u) st0.store = none →
    ((∀ j : Nat, 1 ≤ j → j ≤ get_rate_limit (userGet u "role" "") →
       (check_rate_limit CacheClient.working
         (rateIter CacheClient.working u (j - 1) st0) u).1 = true)
     ∧ (check_rate_limit CacheClient.working
          (rateIter CacheClient.working u (get_rate_limit (userGet u "role" "")) st0) u).1 = false
     ∧ List.lookup (rate_key u) (rateIter CacheClient.working u 1 st0).ttls = some 3600
     ∧ (∀ (st : RedisState) (m : Int), 1 ≤ m →
         List.lookup (rate_key u) st.store = some (RVal.rint m) →
         (check_rate_limit CacheClient.working st u).2.1.ttls = st.ttls)
     ∧ (∀ role, List.lookup role RATE_LIMITS_TABLE = none → get_rate_limit role = 100)) := by
  intro u st0 h0
  have hfirst := rate_first_call u st0 h0
  have hst1 : List.lookup (rate_key u)
      (assocSet (rate_key u) (RVal.rint 1) st0.store) = some (RVal.rint 1) :=
    assocSet_lookup_self _ _ _
  refine ⟨?_, ?_, ?_, ?_, ?_⟩
  · intro j h1 h2
    cases j with
    | zero => omega
    | succ k =>
      cases k with
      | zero =>
        show (check_rate_limit CacheClient.working (rateIter CacheClient.working u 0 st0) u).1 = true
        rw [show rateIter CacheClient.working u 0 st0 = st0 from rfl, hfirst]
        simp only
        rw [Bool.not_eq_true', decide_eq_false_iff_not]
        omega
      | succ k2 =>
        show (check_rate_limit CacheClient.working
          (rateIter CacheClient.working u (k2 + 1) st0) u).1 = true
        have hunfold : rateIter CacheClient.working u (k2 + 1) st0 =
            rateIter CacheClient.working u k2 (check_rate_limit CacheClient.working st0 u).2.1 := rfl
        rw [hunfold, hfirst]
        have hcnt := (rate_iter_counter u k2
          ⟨assocSet (rate_key u) (RVal.rint 1) st0.store, assocSet (rate_key u) 3600 st0.ttls⟩
          1 (by omega) hst1).1
        rw [rate_next_call u _ _ (by omega) hcnt]
        simp only
        rw [Bool.not_eq_true', decide_eq_false_iff_not]
        omega
  · obtain ⟨lim, hlim⟩ : ∃ n, get_rate_limit (userGet u "role" "") = n + 1 :=
      ⟨get_rate_limit (userGet u "role" "") - 1, by
        have := get_rate_limit_pos (userGet u "role" "")
        omega⟩
    rw [hlim]
    have hunfold : rateIter CacheClient.working u (lim + 1) st0 =
        rateIter CacheClient.working u lim (check_rate_limit CacheClient.working st0 u).2.1 := rfl
    rw [hunfold, hfirst]
    have hcnt := (rate_iter_counter u lim
      ⟨assocSet (rate_key u) (RVal.rint 1) st0.store, assocSet (rate_key u) 3600 st0.ttls⟩
      1 (by omega) hst1).1
    rw [rate_next_call u _ _ (by omega) hcnt]
    simp only
    rw [Bool.not_eq_false', decide_eq_true_iff]
    rw [hlim]
    push_cast
    omega
  · have hunfold : rateIter CacheClient.working u 1 st0 =
        rateIter CacheClient.working u 0 (check_rate_limit CacheClient.working st0 u).2.1 := rfl
    rw [hunfold, hfirst]
    show List.lookup (rate_key u) (assocSet (rate_key u) 3600 st0.ttls) = some 3600
    exact assocSet_lookup_self _ _ _
  · intro st m hm h
    rw [rate_next_call u st m hm h]
  · intro role h
    simp [get_rate_limit, h]

/-- Witness for C7: a sales caller starting from an empty keyspace. -/
theorem c7_witness :
    (check_rate_limit CacheClient.working (rateIter CacheClient.working userSales 0 emptyRedis)
      userSales).1 = true ∧
    (check_rate_limit CacheClient.working
      (rateIter CacheClient.working userSales (get_rate_limit (userGet userSales "role" ""))
        emptyRedis) userSales).1 = false ∧
    List.lookup (rate_key userSales) (rateIter CacheClient.working userSales 1 emptyRedis).ttls
      = some 3600 ∧
    get_rate_limit "mystery_role" = 100 := by
  have h := c7_rate_limiting userSales emptyRedis (by decide)
  exact ⟨h.1 1 (by decide) (by decide), h.2.1, h.2.2.1, h.2.2.2.2 "mystery_role" (by decide)⟩

/-! ## C1: cache read versus the authorization pipeline -/

/-- Counterexample for C1 as stated: with the key already cached, a
`readonly` caller - denied by function-level authorization - receives the
cache-layer value, and the call's trace contains no authorization check,
no query, and no validation: the cache read is the first and only stage
executed, not a stage behind validation, authorization, and rate
limiting. -/
theorem c1_counterexample :
    can_access_function "readonly" "get_client_notes" = false ∧
    tools_get_all_notes dbEmpty CacheClient.working c1_state (some sample_notes_query)
        "CLIENT1" 100 userReadonly
      = ("SECRET NOTES", c1_state,
         [Event.cacheRead (tools_key "CLIENT1" 100 userReadonly) true]) := by
  decide

/-- C1 (amended): the wrapper consults the cache before any pipeline stage;
on a hit it returns the cached value with unchanged state and a trace bare
of authorization checks and query executions, and only on a miss does the
wrapped body - which performs validation, authorization and rate limiting -
run, between the cache read and the cache write. -/
theorem c1_cache_hit_bypasses_pipeline :
    ∀ (db : Db) (c : CacheClient) (st : RedisState) (q : Option String) (cid : String)
      (lim : Int) (u : UserDict) (v : String),
    (cache_get c st (tools_key cid lim u) = some v →
      (tools_get_all_notes db c st q cid lim u).1 = v ∧
      (tools_get_all_notes db c st q cid lim u).2.1 = st ∧
      (tools_get_all_notes db c st q cid lim u).2.2.filter isAuthEvent = [] ∧
      (tools_get_all_notes db c st q cid lim u).2.2.filter isDbExecEvent = []) ∧
    (cache_get c st (tools_key cid lim u) = none →
      (tools_get_all_notes db c st q cid lim u).2.2.head? =
        some (Event.cacheRead (tools_key cid lim u) false) ∧
      (tools_get_all_notes db c st q cid lim u).2.2.getLast? =
        some (Event.cacheWrite (tools_key cid lim u)) ∧
      (tools_get_all_notes db c st q cid lim u).1 =
        (get_all_notes_body db c st q cid (PyVal.pint lim) u).1) := by
  intro db c st q cid lim u v
  constructor
  · intro h
    simp [tools_get_all_notes, h, isAuthEvent, isDbExecEvent]
  · intro h
    rcases hb : get_all_notes_body db c st q cid (PyVal.pint lim) u with ⟨r, st1, evs⟩
    simp [tools_get_all_notes, h, hb]
    rw [← List.cons_append, List.getLast?_concat]

/-- Witness for C1's amended theorem: a concrete hit returns the cached
value with no authorization events, and a concrete miss puts the cache
read first. -/
theorem c1_witness :
    (tools_get_all_notes dbEmpty CacheClient.working c1w_state (some sample_notes_query)
      "CLIENT2" 100 userSales).1 = "CACHED VALUE" ∧
    (tools_get_all_notes dbEmpty CacheClient.working c1w_state (some sample_notes_query)
      "CLIENT2" 100 userSales).2.2.filter isAuthEvent = [] ∧
    (tools_get_all_notes dbEmpty CacheClient.working emptyRedis (some sample_notes_query)
      "CLIENT2" 100 userSales).2.2.head? =
      some (Event.cacheRead (tools_key "CLIENT2" 100 userSales) false) := by
  have h1 := (c1_cache_hit_bypasses_pipeline dbEmpty CacheClient.working c1w_state
    (some sample_notes_query) "CLIENT2" 100 userSales "CACHED VALUE").1 (by decide)
  have h2 := (c1_cache_hit_bypasses_pipeline dbEmpty CacheClient.working emptyRedis
    (some sample_notes_query) "CLIENT2" 100 userSales "CACHED VALUE").2 (by decide)
  exact ⟨h1.1, h1.2.2.1, h2.1⟩

/-! ## C3: what denied calls do and do not do -/

theorem check_rate_limit_trace (c : CacheClient) (st : RedisState) (u : UserDict) :
    (check_rate_limit c st u).2.2 = [Event.rateLimitCheck (check_rate_limit c st u).1] := rfl

theorem body_validation_fail (db : Db) (c : CacheClient) (st : RedisState)
    (q : Option String) (cid : String) (lim : PyVal) (u : UserDict)
    (hval : (cid == "" || String.mk (pyStrip cid.data) == "") = true) :
    get_all_notes_body db c st q cid lim u = (invalid_client_msg, st, []) := by
  simp [get_all_notes_body, hval]

theorem body_func_denied (db : Db) (c : CacheClient) (st : RedisState)
    (q : Option String) (cid : String) (lim : PyVal) (u : UserDict)
    (hval : (cid == "" || String.mk (pyStrip cid.data) == "") = false)
    (hfn : can_access_function (userGet u "role" "") "get_client_notes" = false) :
    get_all_notes_body db c st q cid lim u =
      (access_denied_msg, st, [Event.funcAuthCheck false]) := by
  simp [get_all_notes_body, hval, check_permissions, hfn]


theorem can_access_client_trace (db : Db) (u : UserDict) (cid : String)
    (hbl : can_view_all_clients (userGet u "role" "") = false) :
    (can_access_client db u cid).2
      = [Event.dbExec USER_CLIENT_ACCESS_QUERY [uidParam u, PyVal.pstr cid]] := by
  cases hres : db.run USER_CLIENT_ACCESS_QUERY [uidParam u, PyVal.pstr cid] <;>
    simp [can_access_client, hbl, execute_query, hres]

theorem can_access_client_events (db : Db) (u : UserDict) (cid : String) :
    (can_access_client db u cid).2 = [] ∨
    (can_access_client db u cid).2
      = [Event.dbExec USER_CLIENT_ACCESS_QUERY [uidParam u, PyVal.pstr cid]] := by
  cases hbl : can_view_all_clients (userGet u "role" "")
  · exact Or.inr (can_access_client_trace db u cid hbl)
  · exact Or.inl (by simp [can_access_client, hbl])

theorem body_row_denied (db : Db) (c : CacheClient) (st : RedisState)
    (q : Option String) (cid : String) (lim : PyVal) (u : UserDict)
    (hval : (cid == "" || String.mk (pyStrip cid.data) == "") = false)
    (hfn : can_access_function (userGet u "role" "") "get_client_notes" = true)
    (hbl : can_view_all_clients (userGet u "role" "") = false)
    (hcid : (sanitize_str cid == "") = false)
    (hrow : (can_access_client db u (sanitize_str cid)).1 = false) :
    get_all_notes_body db c st q cid lim u =
      (access_denied_msg, st,
       [Event.funcAuthCheck true,
        Event.dbExec USER_CLIENT_ACCESS_QUERY [uidParam u, PyVal.pstr (sanitize_str cid)],
        Event.rowAuthCheck false]) := by
  have htr := can_access_client_trace db u (sanitize_str cid) hbl
  rcases hca : can_access_client db u (sanitize_str cid) with ⟨b, evs⟩
  rw [hca] at hrow htr
  simp only at hrow htr
  subst hrow
  subst htr
  simp [get_all_notes_body, hval, check_permissions, hfn, bne, hcid, hca]

theorem body_rate_denied (db : Db) (c : CacheClient) (st : RedisState)
    (q : Option String) (cid : String) (lim : PyVal) (u : UserDict)
    (hval : (cid == "" || String.mk (pyStrip cid.data) == "") = false)
    (hfn : can_access_function (userGet u "role" "") "get_client_notes" = true)
    (hcid : (sanitize_str cid == "") = false)
    (hrowpass : (can_access_client db u (sanitize_str cid)).1 = true)
    (hrl : (check_rate_limit c st u).1 = false) :
    get_all_notes_body db c st q cid lim u =
      (access_denied_msg, (check_rate_limit c st u).2.1,
       Event.funcAuthCheck true :: (can_access_client db u (sanitize_str cid)).2 ++
         [Event.rowAuthCheck true, Event.rateLimitCheck false]) := by
  rcases hca : can_access_client db u (sanitize_str cid) with ⟨b, evs⟩
  rw [hca] at hrowpass
  simp only at hrowpass
  subst hrowpass
  simp [get_all_notes_body, hval, check_permissions, hfn, bne, hcid, hca,
    check_rate_limit_trace, hrl]

theorem body_rate_denied_skiprow (db : Db) (c : CacheClient) (st : RedisState)
    (q : Option String) (cid : String) (lim : PyVal) (u : UserDict)
    (hval : (cid == "" || String.mk (pyStrip cid.data) == "") = false)
    (hfn : can_access_function (userGet u "role" "") "get_client_notes" = true)
    (hcid1 : (sanitize_str cid == "") = true)
    (hrl : (check_rate_limit c st u).1 = false) :
    get_all_notes_body db c st q cid lim u =
      (access_denied_msg, (check_rate_limit c st u).2.1,
       [Event.funcAuthCheck true, Event.rateLimitCheck false]) := by
  simp [get_all_notes_body, hval, check_permissions, hfn, bne, hcid1,
    check_rate_limit_trace, hrl]

theorem tools_miss_eq (db : Db) (c : CacheClient) (st : RedisState) (q : Option String)
    (cid : String) (lim : Int) (u : UserDict)
    (hmiss : cache_get c st (tools_key cid lim u) = none) :
    tools_get_all_notes db c st q cid lim u =
      ((get_all_notes_body db c st q cid (PyVal.pint lim) u).1,
       (cache_set c (get_all_notes_body db c st q cid (PyVal.pint lim) u).2.1
         (tools_key cid lim u) (get_all_notes_body db c st q cid (PyVal.pint lim) u).1
         (some 300)).2,
       Event.cacheRead (tools_key cid lim u) false ::
         (get_all_notes_body db c st q cid (PyVal.pint lim) u).2.2 ++
         [Event.cacheWrite (tools_key cid lim u)]) := by
  rcases hb : get_all_notes_body db c st q cid (PyVal.pint lim) u with ⟨r, st1, evs⟩
  simp [tools_get_all_notes, hmiss, hb]

/-- Counterexample for C3 as stated: a support caller denied by the
row-level check receives the denial message, yet the call did execute the
access-mapping lookup against the store, and the wrapper then wrote the
denial message into the cache - so "no query executed, no cache write" is
false for this denied call. -/
theorem c3_counterexample :
    tools_get_all_notes dbEmpty CacheClient.working emptyRedis (some sample_notes_query)
        "CLIENT5" 100 userSupportKim
      = (access_denied_msg,
         ⟨[(tools_key "CLIENT5" 100 userSupportKim, RVal.rstr access_denied_msg)],
          [(tools_key "CLIENT5" 100 userSupportKim, 300)]⟩,
         [Event.cacheRead (tools_key "CLIENT5" 100 userSupportKim) false,
          Event.funcAuthCheck true,
          Event.dbExec USER_CLIENT_ACCESS_QUERY [PyVal.pstr "kim", PyVal.pstr "CLIENT5"],
          Event.rowAuthCheck false,
          Event.cacheWrite (tools_key "CLIENT5" 100 userSupportKim)]) := by
  decide

/-- C3 (amended): a denied call - validation failure, function-level or
row-level authorization denial (the latter whether the access-mapping
lookup returns no row or itself fails), or rate-limit denial (for callers
whose row step passed by blanket visibility, by a mapping row, or by being
skipped) - returns the corresponding denial/validation message and never
executes the configured notes query: its only possible store interaction
is the row-level access-mapping lookup, which does run on every executed
row-level check.  Moreover, on every cache-miss call with a reachable
cache, whatever string the call returns - denials and validation messages
included - is written to the cache under the derived key: the cache write
is unconditional on the call's outcome, not reserved for successful
execution. -/
theorem c3_denied_calls :
    ∀ (db : Db) (c : CacheClient) (st : RedisState) (q cid : String) (lim : Int) (u : UserDict),
    cache_get c st (tools_key cid lim u) = none →
    ((c = CacheClient.working →
       List.lookup (tools_key cid lim u)
         (tools_get_all_notes db c st (some q) cid lim u).2.1.store
         = some (RVal.rstr (tools_get_all_notes db c st (some q) cid lim u).1))
     ∧ ((cid == "" || String.mk (pyStrip cid.data) == "") = true →
       (tools_get_all_notes db c st (some q) cid lim u).1 = invalid_client_msg ∧
       (tools_get_all_notes db c st (some q) cid lim u).2.2.filter isDbExecEvent = [] ∧
       (tools_get_all_notes db c st (some q) cid lim u).2.2.getLast?
         = some (Event.cacheWrite (tools_key cid lim u)))
     ∧ ((cid == "" || String.mk (pyStrip cid.data) == "") = false →
        can_access_function (userGet u "role" "") "get_client_notes" = false →
       (tools_get_all_notes db c st (some q) cid lim u).1 = access_denied_msg ∧
       (tools_get_all_notes db c st (some q) cid lim u).2.2.filter isDbExecEvent = [] ∧
       (tools_get_all_notes db c st (some q) cid lim u).2.2.getLast?
         = some (Event.cacheWrite (tools_key cid lim u)))
     ∧ ((cid == "" || String.mk (pyStrip cid.data) == "") = false →
        can_access_function (userGet u "role" "") "get_client_notes" = true →
        can_view_all_clients (userGet u "role" "") = false →
        (sanitize_str cid == "") = false →
        (can_access_client db u (sanitize_str cid)).1 = false →
       (tools_get_all_notes db c st (some q) cid lim u).1 = access_denied_msg ∧
       (tools_get_all_notes db c st (some q) cid lim u).2.2.filter isDbExecEvent
         = [Event.dbExec USER_CLIENT_ACCESS_QUERY [uidParam u, PyVal.pstr (sanitize_str cid)]] ∧
       (tools_get_all_notes db c st (some q) cid lim u).2.2.getLast?
         = some (Event.cacheWrite (tools_key cid lim u)))
     ∧ ((cid == "" || String.mk (pyStrip cid.data) == "") = false →
        can_access_function (userGet u "role" "") "get_client_notes" = true →
        (sanitize_str cid == "") = false →
        (can_access_client db u (sanitize_str cid)).1 = true →
        (check_rate_limit c st u).1 = false →
       (tools_get_all_notes db c st (some q) cid lim u).1 = access_denied_msg ∧
       (tools_get_all_notes db c st (some q) cid lim u).2.2.filter isDbExecEvent
         = ((can_access_client db u (sanitize_str cid)).2).filter isDbExecEvent ∧
       (tools_get_all_notes db c st (some q) cid lim u).2.2.getLast?
         = some (Event.cacheWrite (tools_key cid lim u)))
     ∧ ((cid == "" || String.mk (pyStrip cid.data) == "") = false →
        can_access_function (userGet u "role" "") "get_client_notes" = true →
        (sanitize_str cid == "") = true →
        (check_rate_limit c st u).1 = false →
       (tools_get_all_notes db c st (some q) cid lim u).1 = access_denied_msg ∧
       (tools_get_all_notes db c st (some q) cid lim u).2.2.filter isDbExecEvent = [] ∧
       (tools_get_all_notes db c st (some q) cid lim u).2.2.getLast?
         = some (Event.cacheWrite (tools_key cid lim u)))
     ∧ (∀ cidv, (can_access_client db u cidv).2 = [] ∨
         (can_access_client db u cidv).2
           = [Event.dbExec USER_CLIENT_ACCESS_QUERY [uidParam u, PyVal.pstr cidv]])) := by
  intro db c st q cid lim u hmiss
  refine ⟨?_, ?_, ?_, ?_, ?_, ?_, ?_⟩
  · intro hc
    subst hc
    rw [tools_miss_eq db CacheClient.working st (some q) cid lim u hmiss]
    simp [cache_set]
    exact assocSet_lookup_self _ _ _
  · intro hval
    rw [tools_miss_eq db c st (some q) cid lim u hmiss,
      body_validation_fail db c st (some q) cid (PyVal.pint lim) u hval]
    exact ⟨rfl, by simp [isDbExecEvent], by simp⟩
  · intro hval hfn
    rw [tools_miss_eq db c st (some q) cid lim u hmiss,
      body_func_denied db c st (some q) cid (PyVal.pint lim) u hval hfn]
    exact ⟨rfl, by simp [isDbExecEvent], by simp⟩
  · intro hval hfn hbl hcid hrow
    rw [tools_miss_eq db c st (some q) cid lim u hmiss,
      body_row_denied db c st (some q) cid (PyVal.pint lim) u hval hfn hbl hcid hrow]
    exact ⟨rfl, by simp [isDbExecEvent], by simp⟩
  · intro hval hfn hcid hrowpass hrl
    rw [tools_miss_eq db c st (some q) cid lim u hmiss,
      body_rate_denied db c st (some q) cid (PyVal.pint lim) u hval hfn hcid hrowpass hrl]
    refine ⟨rfl, ?_, ?_⟩
    · simp [isDbExecEvent, List.filter_append]
    · rw [← List.cons_append, List.getLast?_concat]
  · intro hval hfn hcid1 hrl
    rw [tools_miss_eq db c st (some q) cid lim u hmiss,
      body_rate_denied_skiprow db c st (some q) cid (PyVal.pint lim) u hval hfn hcid1 hrl]
    exact ⟨rfl, by simp [isDbExecEvent], by simp⟩
  · intro cidv
    exact can_access_client_events db u cidv

/-- Witness for C3's amended theorem: a function-level denial whose message
is returned and cached, a validation failure, a fail-closed row-level
denial whose only store interaction is the lookup, and a rate-limit denial
of a support caller who passed the row check via a mapping row. -/
theorem c3_witness :
    (tools_get_all_notes dbEmpty CacheClient.working emptyRedis (some sample_notes_query)
      "CLIENT1" 100 userReadonly).1 = access_denied_msg ∧
    List.lookup (tools_key "CLIENT1" 100 userReadonly)
      (tools_get_all_notes dbEmpty CacheClient.working emptyRedis (some sample_notes_query)
        "CLIENT1" 100 userReadonly).2.1.store = some (RVal.rstr access_denied_msg) ∧
    (tools_get_all_notes dbEmpty CacheClient.working emptyRedis (some sample_notes_query)
      "  " 100 userSales).1 = invalid_client_msg ∧
    (tools_get_all_notes dbBoom CacheClient.working emptyRedis (some sample_notes_query)
      "CLIENT5" 100 userSupportKim).1 = access_denied_msg ∧
    (tools_get_all_notes dbBoom CacheClient.working emptyRedis (some sample_notes_query)
      "CLIENT5" 100 userSupportKim).2.2.filter isDbExecEvent
      = [Event.dbExec USER_CLIENT_ACCESS_QUERY
          [uidParam userSupportKim, PyVal.pstr (sanitize_str "CLIENT5")]] ∧
    (tools_get_all_notes dbOneRow CacheClient.working
      (⟨[("rate_limit:kim", RVal.rint 500)], []⟩ : RedisState) (some sample_notes_query)
      "CLIENT5" 100 userSupportKim).1 = access_denied_msg := by
  have hB := (c3_denied_calls dbEmpty CacheClient.working emptyRedis sample_notes_query
    "CLIENT1" 100 userReadonly (by decide)).2.2.1 (by decide) (by decide)
  have hw := (c3_denied_calls dbEmpty CacheClient.working emptyRedis sample_notes_query
    "CLIENT1" 100 userReadonly (by decide)).1 rfl
  rw [hB.1] at hw
  have hA := (c3_denied_calls dbEmpty CacheClient.working emptyRedis sample_notes_query
    "  " 100 userSales (by decide)).2.1 (by decide)
  have hC := (c3_denied_calls dbBoom CacheClient.working emptyRedis sample_notes_query
    "CLIENT5" 100 userSupportKim (by decide)).2.2.2.1 (by decide) (by decide) (by decide)
    (by decide) (by decide)
  have hD := (c3_denied_calls dbOneRow CacheClient.working
    (⟨[("rate_limit:kim", RVal.rint 500)], []⟩ : RedisState) sample_notes_query
    "CLIENT5" 100 userSupportKim (by decide)).2.2.2.2.1 (by decide) (by decide) (by decide)
    (by decide) (by decide)
  exact ⟨hB.1, hw, hA.1, hC.1, hC.2.1, hD.1⟩

/-! ## C9: the rate counter on denied calls -/

/-- Counterexample for C9 as stated: a readonly caller denied by
function-level authorization leaves the Redis state - including the
rate-limit counter - completely unchanged: the increment does not happen
on authorization-denied calls. -/
theorem c9_counterexample :
    (check_permissions dbEmpty CacheClient.working emptyRedis userReadonly (some "CLIENT1")).1
      = false ∧
    (check_permissions dbEmpty CacheClient.working emptyRedis userReadonly (some "CLIENT1")).2.1
      = emptyRedis := by
  decide

/-- C9 (amended): rate limiting runs after the authorization checks, so a
call denied at function level or row level - the latter whether the
access-mapping lookup found no row or itself failed - does not increment
the caller's counter (the cache state is returned unchanged); once both
authorization checks pass (the row check by blanket visibility, by a
mapping row, or by being skipped), `_check_permissions` hands state to
`_check_rate_limit`, whose increment is not rolled back even when it
itself then denies the call. -/
theorem c9_counter_and_denials :
    ∀ (db : Db) (c : CacheClient) (st : RedisState) (u : UserDict) (client_id : Option String),
    (can_access_function (userGet u "role" "") "get_client_notes" = false →
      check_permissions db c st u client_id = (false, st, [Event.funcAuthCheck false]))
    ∧ (∀ cid, client_id = some cid → (cid == "") = false →
        can_access_function (userGet u "role" "") "get_client_notes" = true →
        (can_access_client db u cid).1 = false →
        (check_permissions db c st u client_id).1 = false ∧
        (check_permissions db c st u client_id).2.1 = st)
    ∧ (can_access_function (userGet u "role" "") "get_client_notes" = true →
       client_id = none →
       (check_permissions db c st u client_id).1 = (check_rate_limit c st u).1 ∧
       (check_permissions db c st u client_id).2.1 = (check_rate_limit c st u).2.1)
    ∧ (∀ cid, client_id = some cid →
        can_access_function (userGet u "role" "") "get_client_notes" = true →
        ((cid == "") = true ∨ (can_access_client db u cid).1 = true) →
        (check_permissions db c st u client_id).1 = (check_rate_limit c st u).1 ∧
        (check_permissions db c st u client_id).2.1 = (check_rate_limit c st u).2.1)
    ∧ (∀ m : Int, 1 ≤ m →
        List.lookup (rate_key u) st.store = some (RVal.rint m) →
        List.lookup (rate_key u)
          (check_rate_limit CacheClient.working st u).2.1.store = some (RVal.rint (m + 1))) := by
  intro db c st u client_id
  refine ⟨?_, ?_, ?_, ?_, ?_⟩
  · intro hfn
    simp [check_permissions, hfn]
  · intro cid hcid hc hfn hrow
    subst hcid
    rcases hca : can_access_client db u cid with ⟨b, evs⟩
    rw [hca] at hrow
    simp only at hrow
    subst hrow
    simp [check_permissions, hfn, bne, hc, hca]
  · intro hfn hnone
    subst hnone
    simp [check_permissions, hfn]
  · intro cid hcid hfn hdisj
    subst hcid
    rcases hdisj with hc | hca1
    · simp [check_permissions, hfn, bne, hc]
    · rcases hca : can_access_client db u cid with ⟨b, evs⟩
      rw [hca] at hca1
      simp only at hca1
      subst hca1
      cases hcb : (cid == "") <;> simp [check_permissions, hfn, bne, hcb, hca]
  · intro m hm h
    rw [rate_next_call u st m hm h]
    exact assocSet_lookup_self _ _ _

/-- Witness for C9's amended theorem: a function-level denial and a
fail-closed row-level denial leave the state untouched; a support caller
with a mapping row and a blanket-visibility sales caller both hand state
to the rate limiter; a counter at 500 is incremented to 501. -/
theorem c9_witness :
    check_permissions dbEmpty CacheClient.working emptyRedis userReadonly (some "CLIENT1")
      = (false, emptyRedis, [Event.funcAuthCheck false]) ∧
    (check_permissions dbBoom CacheClient.working emptyRedis userSupportKim (some "CLIENT1")).2.1
      = emptyRedis ∧
    (check_permissions dbOneRow CacheClient.working emptyRedis userSupportKim
      (some "CLIENT1")).2.1
      = (check_rate_limit CacheClient.working emptyRedis userSupportKim).2.1 ∧
    (check_permissions dbEmpty CacheClient.working emptyRedis userSales (some "CLIENT1")).2.1
      = (check_rate_limit CacheClient.working emptyRedis userSales).2.1 ∧
    List.lookup (rate_key userSales)
      (check_rate_limit CacheClient.working
        (⟨[("rate_limit:s1", RVal.rint 500)], []⟩ : RedisState) userSales).2.1.store
      = some (RVal.rint 501) := by
  have h0 := c9_counter_and_denials dbEmpty CacheClient.working emptyRedis userReadonly
    (some "CLIENT1")
  have h1 := c9_counter_and_denials dbBoom CacheClient.working emptyRedis userSupportKim
    (some "CLIENT1")
  have h2 := c9_counter_and_denials dbOneRow CacheClient.working emptyRedis userSupportKim
    (some "CLIENT1")
  have h3 := c9_counter_and_denials dbEmpty CacheClient.working emptyRedis userSales
    (some "CLIENT1")
  have h4 := c9_counter_and_denials dbEmpty CacheClient.working
    (⟨[("rate_limit:s1", RVal.rint 500)], []⟩ : RedisState) userSales (some "CLIENT1")
  have h5 := h4.2.2.2.2 500 (by omega) (by decide)
  refine ⟨h0.1 (by decide),
    (h1.2.1 "CLIENT1" rfl (by decide) (by decide) (by decide)).2,
    (h2.2.2.2.1 "CLIENT1" rfl (by decide) (Or.inr (by decide))).2,
    (h3.2.2.2.1 "CLIENT1" rfl (by decide) (Or.inr (by decide))).2,
    by simpa using h5⟩
